import Mathlib

/-!
Verification development for the SelfAwareAI repository.

Shallow embedding of the two core subsystems:
* the health-monitoring / recovery engine of `self_healing_coding_module.py`
  (`AdvancedHealthMonitor`, `SelfHealingModule`), and
* the hierarchical command-dispatch machinery of `bot_management_system.py`
  (`SubBot.execute_command`, `DirectorBot.execute_command` and its handlers).

Machine floats of the source are modelled as rationals (`ℚ`); wall-clock
reads (`time.time()`) are modelled by an explicit `now : ℚ` parameter, and
externally-observed side effects (psutil sampling, executors touching the
OS) by explicit inputs/oracles.  Python dicts that preserve insertion order
are modelled as association lists in insertion order.
-/

namespace SelfAware

/-- Mirror of the `HealthMetrics` dataclass of `self_healing_coding_module.py`. -/
structure HealthMetrics where
  cpu_usage : ℚ
  memory_usage : ℚ
  disk_usage : ℚ
  response_time : ℚ
  error_rate : ℚ
  timestamp : ℚ
deriving DecidableEq, Repr

/-- `AdvancedHealthMonitor.max_history` (set to 100 in `__init__`). -/
def maxHistory : Nat := 100

/-- The `self.thresholds` dict of `AdvancedHealthMonitor.__init__`. -/
structure Thresholds where
  cpu_critical : ℚ
  memory_critical : ℚ
  disk_critical : ℚ
  response_time_critical : ℚ
  error_rate_critical : ℚ
deriving DecidableEq, Repr

def defaultThresholds : Thresholds :=
  { cpu_critical := 90
    memory_critical := 85
    disk_critical := 95
    response_time_critical := 5
    error_rate_critical := mkRat 1 10 }

/-- Python's `l[-n:]` slice: the last at-most `n` elements of a list. -/
def lastN (n : Nat) (l : List α) : List α :=
  l.drop (l.length - n)

/-- `AdvancedHealthMonitor._calculate_error_rate`: 0.0 when fewer than 5
snapshots exist, else the fraction of the last at-most-10 snapshots whose
`cpu_usage` exceeds 80. -/
def calculateErrorRate (history : List HealthMetrics) : ℚ :=
  if history.length < 5 then 0
  else
    let recent_metrics := lastN 10 history
    let high_cpu_count := (recent_metrics.filter (fun m => decide (80 < m.cpu_usage))).length
    (high_cpu_count : ℚ) / (recent_metrics.length : ℚ)

/-- `all(cpu_values[i] < cpu_values[i+1] for i in range(len(cpu_values)-1))`. -/
def pairwiseIncreasing : List ℚ → Bool
  | [] => true
  | [_] => true
  | a :: b :: rest => decide (a < b) && pairwiseIncreasing (b :: rest)

/-- `AdvancedHealthMonitor._analyze_trends`: trend heuristics over the last
10 stored snapshots.  The float formatting of the leak message's percentage
is abstracted to a fixed prefix string. -/
def analyzeTrends (history : List HealthMetrics) : List String :=
  let recent_metrics := lastN 10 history
  let cpu_values := recent_metrics.map (·.cpu_usage)
  let cpuAlerts :=
    if 5 ≤ cpu_values.length ∧ pairwiseIncreasing cpu_values then
      ["CPU usage trend: steadily increasing"]
    else []
  let memory_values := recent_metrics.map (·.memory_usage)
  let memAlerts :=
    if 5 ≤ memory_values.length ∧
        10 < memory_values.getLast?.getD 0 - memory_values.head?.getD 0 then
      ["Potential memory leak detected"]
    else []
  cpuAlerts ++ memAlerts

/-- `AdvancedHealthMonitor._analyze_metrics`: instantaneous threshold alerts
followed by trend alerts (trend analysis only runs once at least 10
snapshots are already stored).  Alert messages keep the source's fixed text;
the interpolated numeric values are rendered with `toString`. -/
def analyzeMetrics (history : List HealthMetrics) (m : HealthMetrics) : List String :=
  let a1 := if defaultThresholds.cpu_critical < m.cpu_usage then
    ["Critical CPU usage: " ++ toString m.cpu_usage ++ "%"] else []
  let a2 := if defaultThresholds.memory_critical < m.memory_usage then
    ["Critical memory usage: " ++ toString m.memory_usage ++ "%"] else []
  let a3 := if defaultThresholds.disk_critical < m.disk_usage then
    ["Critical disk usage: " ++ toString m.disk_usage ++ "%"] else []
  let a4 := if defaultThresholds.response_time_critical < m.response_time then
    ["Slow response time: " ++ toString m.response_time ++ "s"] else []
  let a5 := if defaultThresholds.error_rate_critical < m.error_rate then
    ["High error rate: " ++ toString m.error_rate] else []
  let trendAlerts := if 10 ≤ history.length then analyzeTrends history else []
  a1 ++ a2 ++ a3 ++ a4 ++ a5 ++ trendAlerts

/-- `AdvancedHealthMonitor._store_metrics` (history append; the awareness
notification is an external effect). -/
def storeMetrics (history : List HealthMetrics) (m : HealthMetrics) : List HealthMetrics :=
  history ++ [m]

/-- The history-trimming step of `AdvancedHealthMonitor._monitor_loop`:
`if len(self.health_history) > self.max_history: self.health_history =
self.health_history[-self.max_history:]`. -/
def trimHistory (history : List HealthMetrics) : List HealthMetrics :=
  if maxHistory < history.length then lastN maxHistory history else history

/-- One iteration of `AdvancedHealthMonitor._monitor_loop` applied to a
sampled snapshot `m`: analyze (returning the alerts fired via
`_trigger_alert`), store, then trim. -/
def monitorTick (history : List HealthMetrics) (m : HealthMetrics) :
    List HealthMetrics × List String :=
  (trimHistory (storeMetrics history m), analyzeMetrics history m)

/-- The history effect of `SelfHealingModule.force_health_check` applied to
a sampled snapshot `m`: `_analyze_metrics` then `_store_metrics`, with no
trimming step. -/
def forceHealthCheck (history : List HealthMetrics) (m : HealthMetrics) :
    List HealthMetrics × List String :=
  (storeMetrics history m, analyzeMetrics history m)

/-- An interleaving step: a monitor-loop tick or a forced health check,
each carrying the snapshot the sampler returned for it. -/
inductive MonitorOp where
  | tick (m : HealthMetrics)
  | force (m : HealthMetrics)
deriving DecidableEq, Repr

/-- Run a sequence of monitor operations, accumulating every alert fired. -/
def runMonitorOps (ops : List MonitorOp) (history : List HealthMetrics) :
    List HealthMetrics × List String :=
  match ops with
  | [] => (history, [])
  | op :: rest =>
    let step := match op with
      | .tick m => monitorTick history m
      | .force m => forceHealthCheck history m
    let next := runMonitorOps rest step.1
    (next.1, step.2 ++ next.2)

def isTick : MonitorOp → Bool
  | .tick _ => true
  | .force _ => false

/-- Number of `force` operations after the last `tick` (all of them when no
tick occurs). -/
def trailingForces (ops : List MonitorOp) : Nat :=
  match ops with
  | [] => 0
  | MonitorOp.tick _ :: rest => trailingForces rest
  | MonitorOp.force _ :: rest =>
    if rest.any isTick then trailingForces rest
    else rest.length + 1

/-- The non-`no_data` payload of `AdvancedHealthMonitor.get_health_summary`. -/
structure SummaryData where
  status : String
  cpu : ℚ
  memory : ℚ
  disk : ℚ
  response_time : ℚ
  avg_cpu : ℚ
  avg_memory : ℚ
  trends : List String
  monitoring_active : Bool
deriving DecidableEq, Repr

/-- Result of `get_health_summary`: either the distinguished
`{"status": "no_data"}` dict or the full summary dict. -/
inductive HealthSummary where
  | noData
  | full (d : SummaryData)
deriving DecidableEq, Repr

/-- `AdvancedHealthMonitor.get_health_summary`. -/
def getHealthSummary (history : List HealthMetrics) (monitoringActive : Bool) :
    HealthSummary :=
  match history.getLast? with
  | none => .noData
  | some latest =>
    let lastTen := lastN 10 history
    let avg_cpu := ((lastTen.map (·.cpu_usage)).sum) / ((min 10 history.length : Nat) : ℚ)
    let avg_memory := ((lastTen.map (·.memory_usage)).sum) / ((min 10 history.length : Nat) : ℚ)
    .full
      { status :=
          if latest.cpu_usage < 80 ∧ latest.memory_usage < 80 then "healthy" else "warning"
        cpu := latest.cpu_usage
        memory := latest.memory_usage
        disk := latest.disk_usage
        response_time := latest.response_time
        avg_cpu := avg_cpu
        avg_memory := avg_memory
        trends := analyzeTrends history
        monitoring_active := monitoringActive }

/-! ## Agent (SubBot) metrics and command execution, `bot_management_system.py` -/

/-- Mirror of the `BotMetrics` dataclass.  The wall-clock fields
(`uptime`, `cpu_usage`, `memory_usage`, `last_activity`) are externally
sampled and not touched by the logic under verification, so they are
omitted from the embedding. -/
structure BotMetrics where
  commands_executed : Nat
  error_count : Nat
  success_rate : ℚ
deriving DecidableEq, Repr

/-- Field defaults of the `BotMetrics` dataclass. -/
def initialBotMetrics : BotMetrics :=
  { commands_executed := 0, error_count := 0, success_rate := 100 }

/-- The `parameters` dict of a `BotCommand`, restricted to the keys the
embedded handlers read. -/
structure CmdParams where
  bot_type : Option String := none
  name : Option String := none
  bot_id : Option String := none
  swarm_id : Option String := none
  template : Option String := none
deriving DecidableEq, Repr

/-- Mirror of the `BotCommand` dataclass (timestamp is wall-clock and
unused by the embedded logic). -/
structure BotCommand where
  command_id : String
  command_type : String
  target_bot : Option String := none
  target_swarm : Option String := none
  params : CmdParams := {}
  priority : Nat := 1
deriving DecidableEq, Repr

/-- Outcome of running one registered handler coroutine: a normal return
with a result payload, or a raised exception with its message. -/
inductive HandlerOutcome where
  | ok (payload : String)
  | exn (msg : String)
deriving DecidableEq, Repr

/-- The dict returned by `execute_command`: the handler's result on
success, or the structured `{'status': 'error', 'message': ..,
'command_id': ..}` dict built in the `except` branch. -/
inductive ExecResult where
  | success (payload : String)
  | error (message : String) (command_id : String)
deriving DecidableEq, Repr

def ExecResult.isError : ExecResult → Bool
  | .success _ => false
  | .error _ _ => true

/-- `SubBot.execute_command`, parametrized by the bot's `task_handlers`
table (`none` = command type absent from the dict).  Faithful points:
`commands_executed` is incremented unconditionally at entry; an unknown
command type raises `ValueError` which the `except` branch converts into
the structured error dict; `success_rate` is recomputed only on the
success path; the `except` branch increments `error_count` but leaves
`success_rate` untouched. -/
def executeSubCommand (handlers : String → Option (BotCommand → HandlerOutcome))
    (metrics : BotMetrics) (cmd : BotCommand) : BotMetrics × ExecResult :=
  let m1 := { metrics with commands_executed := metrics.commands_executed + 1 }
  match handlers cmd.command_type with
  | none =>
    ({ m1 with error_count := m1.error_count + 1 },
     .error ("Unknown command type: " ++ cmd.command_type) cmd.command_id)
  | some h =>
    match h cmd with
    | .ok payload =>
      let success_count : ℚ := (m1.commands_executed : ℚ) - (m1.error_count : ℚ)
      ({ m1 with success_rate := success_count / (m1.commands_executed : ℚ) * 100 },
       .success payload)
    | .exn msg =>
      ({ m1 with error_count := m1.error_count + 1 }, .error msg cmd.command_id)

/-- Metrics state after a sequence of `execute_command` calls. -/
def runSubCommands (handlers : String → Option (BotCommand → HandlerOutcome))
    (metrics : BotMetrics) : List BotCommand → BotMetrics
  | [] => metrics
  | c :: rest => runSubCommands handlers (executeSubCommand handlers metrics c).1 rest

/-! ## Recovery scheduler of `SelfHealingModule` -/

/-- Mirror of the `RecoveryAction` dataclass (the executor callable is an
external capability and is not part of the catalog data). -/
structure RecoveryAction where
  name : String
  priority : Nat
  max_attempts : Nat
  cooldown : ℚ
deriving DecidableEq, Repr

/-- The catalog registered by `SelfHealingModule._register_recovery_actions`. -/
def registeredRecoveryActions : List RecoveryAction :=
  [ { name := "restart_service", priority := 1, max_attempts := 2, cooldown := 300 }
  , { name := "clear_memory", priority := 2, max_attempts := 5, cooldown := 60 }
  , { name := "restart_process", priority := 3, max_attempts := 3, cooldown := 180 }
  , { name := "cleanup_temp", priority := 4, max_attempts := 10, cooldown := 30 }
  , { name := "optimize_performance", priority := 5, max_attempts := 3, cooldown := 600 }
  , { name := "rollback_changes", priority := 6, max_attempts := 1, cooldown := 1800 } ]

/-- One per-action-name entry of `self.action_history`. -/
structure ActionRecord where
  attempts : Nat
  successes : Nat
  last_attempt : Option ℚ
deriving DecidableEq, Repr

/-- Scheduler state: `self.action_history` (insertion-ordered dict) and the
pending `self.recovery_actions` priority queue, whose entries are
`(priority, action_key, action_type)` (the context dict is opaque to the
scheduling logic). -/
structure HealingState where
  action_history : List (String × ActionRecord)
  recovery_queue : List (Nat × String × String)
deriving DecidableEq, Repr

def initialHealingState : HealingState :=
  { action_history := [], recovery_queue := [] }

def historyFind (history : List (String × ActionRecord)) (k : String) :
    Option ActionRecord :=
  (history.find? (fun p => p.1 = k)).map (·.2)

def historySet (history : List (String × ActionRecord)) (k : String)
    (v : ActionRecord) : List (String × ActionRecord) :=
  if (history.find? (fun p => p.1 = k)).isSome then
    history.map (fun p => if p.1 = k then (k, v) else p)
  else
    history ++ [(k, v)]

/-- `SelfHealingModule._was_recently_attempted(action_type, cooldown=300)`.
The source reads `last_attempt` with `.get('last_attempt', 0)`. -/
def wasRecentlyAttempted (history : List (String × ActionRecord))
    (action_type : String) (now : ℚ) (cooldown : ℚ) : Bool :=
  match historyFind history action_type with
  | none => false
  | some r => now - r.last_attempt.getD 0 < cooldown

/-- `SelfHealingModule._get_action_priority`. -/
def getActionPriority (action_type : String) : Nat :=
  match action_type with
  | "HighCPUUsage" => 2
  | "HighMemoryUsage" => 1
  | "DiskSpaceLow" => 3
  | "ProcessDead" => 1
  | "ServiceDown" => 1
  | "optimize_performance" => 4
  | "cleanup_temp" => 5
  | _ => 10

/-- Lexicographic order on `(priority, action_key, action_type)` queue
entries, the order in which `queue.PriorityQueue` yields tuples. -/
def entryLe (a b : Nat × String × String) : Bool :=
  decide (a.1 < b.1) ||
    (decide (a.1 = b.1) &&
      (decide (a.2.1 < b.2.1) ||
        (decide (a.2.1 = b.2.1) &&
          (decide (b.2.2 < a.2.2) = false))))

def insertEntry (e : Nat × String × String) :
    List (Nat × String × String) → List (Nat × String × String)
  | [] => [e]
  | x :: xs => if entryLe e x then e :: x :: xs else x :: insertEntry e xs

def sortEntries : List (Nat × String × String) → List (Nat × String × String)
  | [] => []
  | x :: xs => insertEntry x (sortEntries xs)

/-- The per-entry body of `SelfHealingModule._process_recovery_queue`:
execute the action (its outcome supplied by the `execOutcome` oracle, since
the executors act on the external system), then record the attempt, the
`last_attempt` timestamp, and the success. -/
def recordAttempt (execOutcome : String → Bool) (now : ℚ)
    (history : List (String × ActionRecord)) (action_type : String) :
    List (String × ActionRecord) :=
  let success := execOutcome action_type
  let r0 := (historyFind history action_type).getD
    { attempts := 0, successes := 0, last_attempt := none }
  let r1 :=
    { r0 with
      attempts := r0.attempts + 1
      last_attempt := some now
      successes := r0.successes + (if success then 1 else 0) }
  historySet history action_type r1

/-- `SelfHealingModule._process_recovery_queue`: pop by priority until the
queue is empty (no entries are added while draining, so draining equals
folding over the queue in priority order). -/
def processRecoveryQueue (execOutcome : String → Bool) (now : ℚ)
    (queue : List (Nat × String × String))
    (history : List (String × ActionRecord)) : List (String × ActionRecord) :=
  (sortEntries queue).foldl (fun h e => recordAttempt execOutcome now h e.2.2) history

/-- `SelfHealingModule._schedule_recovery_action`: skip when the action was
attempted within the cooldown window (the call site passes no `cooldown`
argument, so the default `300` applies regardless of any per-action
cooldown in the catalog); otherwise enqueue by priority (the key carries
the schedule timestamp) and immediately drain the queue. -/
def scheduleRecoveryAction (execOutcome : String → Bool) (st : HealingState)
    (action_type : String) (now : ℚ) : HealingState :=
  if wasRecentlyAttempted st.action_history action_type now 300 then st
  else
    let action_key := action_type ++ "_" ++ toString now
    let priority := getActionPriority action_type
    let queue1 := st.recovery_queue ++ [(priority, action_key, action_type)]
    { action_history := processRecoveryQueue execOutcome now queue1 st.action_history
      recovery_queue := [] }

/-- Recorded attempt count for an action type. -/
def attemptsOf (st : HealingState) (action_type : String) : Nat :=
  ((historyFind st.action_history action_type).map (·.attempts)).getD 0

/-! ## Director dispatch, `bot_management_system.py` -/

/-- The `BotStatus` enum. -/
inductive BotStatus where
  | idle
  | active
  | error
  | stopped
  | starting
  | stopping
deriving DecidableEq, Repr

/-- Registry view of one `SubBot`: its identity, its `bot_type.value`
string, lifecycle status, running flag, pending command queue, and
metrics.  `uuid.uuid4()` identifiers are modelled by a deterministic fresh
supply (see `freshBotId`). -/
structure SubBotState where
  bot_id : String
  bot_type : String
  name : String
  status : BotStatus
  is_running : Bool
  queue : List BotCommand
  metrics : BotMetrics
deriving DecidableEq, Repr

/-- Registry view of one `BotSwarm`: identity, name, the ids of its member
bots (`self.bots` holds references to bots registered in the Director's
`sub_bots`), and status. -/
structure SwarmState where
  swarm_id : String
  name : String
  member_ids : List String
  status : BotStatus
deriving DecidableEq, Repr

/-- The Director's registries: `self.sub_bots` and `self.swarms`
(insertion-ordered dicts modelled as lists) plus the fresh-id supply
standing in for `uuid.uuid4()`. -/
structure DirectorCore where
  sub_bots : List SubBotState
  swarms : List SwarmState
  next_id : Nat
deriving DecidableEq, Repr

/-- Outcome of one director-level handler: a success payload (the returned
dict, abstracted to its message string) or a raised exception message. -/
inductive DirOutcome where
  | ok (payload : String)
  | exn (msg : String)
deriving DecidableEq, Repr

def freshBotId (core : DirectorCore) : String :=
  "bot-" ++ toString core.next_id

def findBot (core : DirectorCore) (bid : String) : Option SubBotState :=
  core.sub_bots.find? (fun b => b.bot_id = bid)

def findSwarm (core : DirectorCore) (sid : String) : Option SwarmState :=
  core.swarms.find? (fun s => s.swarm_id = sid)

/-- The keys of `bot_classes` in `_handle_create_bot`; any other requested
type falls back to the bare `SubBot` class, whose constructor is then
called as `SubBot(bot_id, bot_name)`, binding the name string (or `None`)
to the `bot_type` parameter — evaluating `bot_type.value` in
`BaseBotInterface.__init__` then raises `AttributeError` in every case. -/
def knownBotType (bt : String) : Bool :=
  decide (bt = "analyzer") || decide (bt = "generator") || decide (bt = "monitor")

/-- The bot-construction path shared by `_handle_create_bot` (and through
it by `_handle_create_swarm`): allocate an id, build the bot with default
name `f"{bot_type}_{bot_id[:8]}"` when the `name` parameter is absent or
empty (Python `name or default`), register it, and return its id and name;
an unrecognized `bot_type` raises before registration. -/
def createBotCore (core : DirectorCore) (btParam nameParam : Option String) :
    DirectorCore × Except String (String × String) :=
  let bt := btParam.getD "custom"
  if knownBotType bt then
    let bid := freshBotId core
    let nm := match nameParam with
      | some n => if n = "" then bt ++ "_" ++ bid.take 8 else n
      | none => bt ++ "_" ++ bid.take 8
    let bot : SubBotState :=
      { bot_id := bid, bot_type := bt, name := nm, status := .idle
        is_running := false, queue := [], metrics := initialBotMetrics }
    ({ core with sub_bots := core.sub_bots ++ [bot], next_id := core.next_id + 1 },
     .ok (bid, nm))
  else
    (core, .error "AttributeError: object has no attribute value")

/-- `DirectorBot._handle_create_bot`. -/
def directorCreateBot (core : DirectorCore) (cmd : BotCommand) :
    DirectorCore × DirOutcome :=
  let bt := cmd.params.bot_type.getD "custom"
  match createBotCore core cmd.params.bot_type cmd.params.name with
  | (core1, .ok idnm) => (core1, .ok ("Created " ++ bt ++ " bot: " ++ idnm.2))
  | (core1, .error msg) => (core1, .exn msg)

/-- `DirectorBot._initialize_swarm_templates`, reduced to each template's
`bot_types` list. -/
def swarmTemplates (t : String) : Option (List (String × Nat)) :=
  match t with
  | "code_analysis" => some [("analyzer", 2), ("monitor", 1)]
  | "code_generation" => some [("generator", 2), ("analyzer", 1)]
  | "full_service" => some [("analyzer", 2), ("generator", 2), ("monitor", 1)]
  | _ => none

/-- The inner `for i in range(count)` loop of `_handle_create_swarm`,
creating `count` bots named `f"{swarm_name}_{bot_type}_{i+1}"` via the
create-bot path and collecting the ids of the successfully created ones.
(The failure branch is unreachable for the static templates, whose types
are all recognized.) -/
def createBotsOfType (swarmName bt : String) :
    Nat → Nat → DirectorCore → DirectorCore × List String
  | 0, _, core => (core, [])
  | Nat.succ k, i, core =>
    match createBotCore core (some bt)
        (some (swarmName ++ "_" ++ bt ++ "_" ++ toString (i + 1))) with
    | (core1, .ok idnm) =>
      let next := createBotsOfType swarmName bt k (i + 1) core1
      (next.1, idnm.1 :: next.2)
    | (core1, .error _) =>
      let next := createBotsOfType swarmName bt k (i + 1) core1
      (next.1, next.2)

/-- The outer loop of `_handle_create_swarm` over the template's
`bot_types` entries. -/
def createSwarmMembers (swarmName : String) :
    List (String × Nat) → DirectorCore → DirectorCore × List String
  | [], core => (core, [])
  | (bt, count) :: rest, core =>
    let step := createBotsOfType swarmName bt count 0 core
    let next := createSwarmMembers swarmName rest step.1
    (next.1, step.2 ++ next.2)

/-- `DirectorBot._handle_create_swarm`.  The time-derived default swarm
name `f"Swarm_{int(time.time())}"` and the `uuid.uuid4()` swarm id are
modelled through the fresh-id supply. -/
def directorCreateSwarm (core : DirectorCore) (cmd : BotCommand) :
    DirectorCore × DirOutcome :=
  let swarmName := cmd.params.name.getD ("Swarm_" ++ toString core.next_id)
  let sid := "swarm-" ++ toString core.next_id
  let core0 := { core with next_id := core.next_id + 1 }
  let botTypes := (cmd.params.template.bind swarmTemplates).getD []
  let members := createSwarmMembers swarmName botTypes core0
  let swarm : SwarmState :=
    { swarm_id := sid, name := swarmName, member_ids := members.2, status := .idle }
  ({ members.1 with swarms := members.1.swarms ++ [swarm] },
   .ok ("Created swarm: " ++ swarmName ++ " with " ++ toString members.2.length ++ " bots"))

/-- Final state of `SubBot.start` (STARTING, loop launched, then IDLE). -/
def botStart (b : SubBotState) : SubBotState :=
  { b with status := .idle, is_running := true }

/-- Final state of `SubBot.stop` (STOPPING then STOPPED). -/
def botStop (b : SubBotState) : SubBotState :=
  { b with status := .stopped, is_running := false }

def updateBotById (core : DirectorCore) (bid : String)
    (f : SubBotState → SubBotState) : DirectorCore :=
  { core with sub_bots := core.sub_bots.map (fun b => if b.bot_id = bid then f b else b) }

/-- `DirectorBot._handle_start_bot`. -/
def directorStartBot (core : DirectorCore) (cmd : BotCommand) :
    DirectorCore × DirOutcome :=
  match cmd.params.bot_id with
  | none => (core, .exn "Bot None not found")
  | some bid =>
    match findBot core bid with
    | none => (core, .exn ("Bot " ++ bid ++ " not found"))
    | some b => (updateBotById core bid botStart, .ok ("Started bot: " ++ b.name))

/-- `DirectorBot._handle_stop_bot`. -/
def directorStopBot (core : DirectorCore) (cmd : BotCommand) :
    DirectorCore × DirOutcome :=
  match cmd.params.bot_id with
  | none => (core, .exn "Bot None not found")
  | some bid =>
    match findBot core bid with
    | none => (core, .exn ("Bot " ++ bid ++ " not found"))
    | some b => (updateBotById core bid botStop, .ok ("Stopped bot: " ++ b.name))

/-- `DirectorBot._handle_start_swarm` (`BotSwarm.start_all`: start every
member, then mark the swarm ACTIVE). -/
def directorStartSwarm (core : DirectorCore) (cmd : BotCommand) :
    DirectorCore × DirOutcome :=
  match cmd.params.swarm_id with
  | none => (core, .exn "Swarm None not found")
  | some sid =>
    match findSwarm core sid with
    | none => (core, .exn ("Swarm " ++ sid ++ " not found"))
    | some s =>
      ({ core with
          sub_bots := core.sub_bots.map
            (fun b => if s.member_ids.contains b.bot_id then botStart b else b)
          swarms := core.swarms.map
            (fun t => if t.swarm_id = sid then { t with status := .active } else t) },
       .ok ("Started swarm: " ++ s.name))

/-- `DirectorBot._handle_stop_swarm` (`BotSwarm.stop_all`). -/
def directorStopSwarm (core : DirectorCore) (cmd : BotCommand) :
    DirectorCore × DirOutcome :=
  match cmd.params.swarm_id with
  | none => (core, .exn "Swarm None not found")
  | some sid =>
    match findSwarm core sid with
    | none => (core, .exn ("Swarm " ++ sid ++ " not found"))
    | some s =>
      ({ core with
          sub_bots := core.sub_bots.map
            (fun b => if s.member_ids.contains b.bot_id then botStop b else b)
          swarms := core.swarms.map
            (fun t => if t.swarm_id = sid then { t with status := .stopped } else t) },
       .ok ("Stopped swarm: " ++ s.name))

/-- `DirectorBot._handle_broadcast_to_swarm` / `BotSwarm.broadcast_command`:
derive one command per member (fresh id `f"{command_id}_{bot_id}"`, same
type and parameters, default targets and priority) and enqueue it on the
member's queue. -/
def directorBroadcastToSwarm (core : DirectorCore) (cmd : BotCommand) :
    DirectorCore × DirOutcome :=
  let missing : Bool := match cmd.target_swarm with
    | none => true
    | some sid => decide (sid = "") || (findSwarm core sid).isNone
  if missing then
    (core, .exn ("Swarm " ++ (cmd.target_swarm.getD "None") ++ " not found"))
  else
    match findSwarm core (cmd.target_swarm.getD "") with
    | none => (core, .exn ("Swarm " ++ (cmd.target_swarm.getD "None") ++ " not found"))
    | some s =>
      ({ core with
          sub_bots := core.sub_bots.map (fun b =>
            if s.member_ids.contains b.bot_id then
              { b with queue := b.queue ++
                [{ command_id := cmd.command_id ++ "_" ++ b.bot_id
                   command_type := cmd.command_type
                   params := cmd.params }] }
            else b) },
       .ok ("Command broadcast to swarm " ++ s.name))

/-- The `command_to_bot_mapping` dict of `_handle_delegate_command`. -/
def commandToBotMapping (commandType : String) : Option String :=
  match commandType with
  | "analyze_code" => some "analyzer"
  | "quality_check" => some "analyzer"
  | "generate_code" => some "generator"
  | "create_tests" => some "generator"
  | "health_check" => some "monitor"
  | "monitor_system" => some "monitor"
  | _ => none

/-- Python `not target_bot or target_bot not in self.sub_bots`. -/
def targetMissing (core : DirectorCore) (t : Option String) : Bool :=
  match t with
  | none => true
  | some s => decide (s = "") || (findBot core s).isNone

/-- `DirectorBot._handle_delegate_command`: route to an explicit registered
target, else to the first registered bot of the command's preferred type
that is currently IDLE; with no viable target raise the
"No suitable bot found" `ValueError`; on success put the command on the
chosen bot's queue. -/
def directorDelegate (core : DirectorCore) (cmd : BotCommand) :
    DirectorCore × DirOutcome :=
  let t0 := cmd.target_bot
  let t1 :=
    if targetMissing core t0 then
      match commandToBotMapping cmd.command_type with
      | some preferred =>
        match core.sub_bots.find?
            (fun b => decide (b.bot_type = preferred) && decide (b.status = BotStatus.idle)) with
        | some b => some b.bot_id
        | none => t0
      | none => t0
    else t0
  if targetMissing core t1 then
    (core, .exn ("No suitable bot found for command: " ++ cmd.command_type))
  else
    match findBot core (t1.getD "") with
    | some b =>
      ({ core with sub_bots := core.sub_bots.map (fun x =>
          if x.bot_id = b.bot_id then { x with queue := x.queue ++ [cmd] } else x) },
       .ok ("Command delegated to " ++ b.name))
    | none => -- unreachable: `targetMissing core t1 = false` implies the lookup succeeds
      (core, .exn ("No suitable bot found for command: " ++ cmd.command_type))

/-- The `self.command_handlers` dict of `DirectorBot.__init__`.  The
read-only status/listing handlers return their serialized payloads,
abstracted here to tag strings. -/
def directorHandlers (commandType : String) :
    Option (DirectorCore → BotCommand → DirectorCore × DirOutcome) :=
  match commandType with
  | "create_bot" => some directorCreateBot
  | "create_swarm" => some directorCreateSwarm
  | "start_bot" => some directorStartBot
  | "stop_bot" => some directorStopBot
  | "start_swarm" => some directorStartSwarm
  | "stop_swarm" => some directorStopSwarm
  | "get_status" => some (fun core _ => (core, .ok "status"))
  | "delegate_command" => some directorDelegate
  | "broadcast_to_swarm" => some directorBroadcastToSwarm
  | "list_bots" => some (fun core _ => (core, .ok "bots"))
  | "list_swarms" => some (fun core _ => (core, .ok "swarms"))
  | _ => none

/-- One entry of `self.command_history` (the `command` dict is identified
by its `command_id`; `timestamp` is wall-clock). -/
structure HistEntry where
  command_id : String
  status : String
  result : Option String := none
  error : Option String := none
deriving DecidableEq, Repr

/-- `self.command_history[-1]['status'] = 'completed'; ...['result'] = result`
guarded by `if self.command_history:`. -/
def completeLastEntry (l : List HistEntry) (payload : String) : List HistEntry :=
  match l.getLast? with
  | none => l
  | some e => l.dropLast ++ [{ e with status := "completed", result := some payload }]

/-- `self.command_history[-1]['status'] = 'error'; ...['error'] = str(e)`
guarded by `if self.command_history:`. -/
def errorLastEntry (l : List HistEntry) (msg : String) : List HistEntry :=
  match l.getLast? with
  | none => l
  | some e => l.dropLast ++ [{ e with status := "error", error := some msg }]

/-- The Director's mutable state: registries, command history and metrics. -/
structure DirectorState where
  core : DirectorCore
  command_history : List HistEntry
  metrics : BotMetrics
deriving DecidableEq, Repr

def initialDirectorState : DirectorState :=
  { core := { sub_bots := [], swarms := [], next_id := 0 }
    command_history := []
    metrics := initialBotMetrics }

/-- `DirectorBot.execute_command`.  Faithful points: `commands_executed`
is incremented and one `'executing'` history entry appended before
dispatch; an unregistered command type is delegated via
`return await self._handle_delegate_command(command)`, an early return
that skips the history-completion update on success; a director-level
handler's success updates the last entry in place to `'completed'` with
the result; any raise is converted to the structured error dict, counts
one error, and updates the last entry in place to `'error'` with the
message.  (The websocket status broadcast is an external effect.) -/
def directorExecute (st : DirectorState) (cmd : BotCommand) :
    DirectorState × ExecResult :=
  let metrics1 := { st.metrics with commands_executed := st.metrics.commands_executed + 1 }
  let hist1 := st.command_history ++ [{ command_id := cmd.command_id, status := "executing" }]
  match directorHandlers cmd.command_type with
  | none =>
    match directorDelegate st.core cmd with
    | (core2, .ok payload) =>
      ({ core := core2, command_history := hist1, metrics := metrics1 },
       .success payload)
    | (core2, .exn msg) =>
      ({ core := core2
         command_history := errorLastEntry hist1 msg
         metrics := { metrics1 with error_count := metrics1.error_count + 1 } },
       .error msg cmd.command_id)
  | some h =>
    match h st.core cmd with
    | (core2, .ok payload) =>
      ({ core := core2, command_history := completeLastEntry hist1 payload
         metrics := metrics1 },
       .success payload)
    | (core2, .exn msg) =>
      ({ core := core2
         command_history := errorLastEntry hist1 msg
         metrics := { metrics1 with error_count := metrics1.error_count + 1 } },
       .error msg cmd.command_id)

/-- Director state after a sequence of `execute_command` calls. -/
def runDirector (st : DirectorState) : List BotCommand → DirectorState
  | [] => st
  | c :: rest => runDirector (directorExecute st c).1 rest

/-! ## Concrete scenario data used by the theorems below -/

/-- A synthetic snapshot with the given CPU reading and benign values in
every other field. -/
def cpuSnapshot (c : ℚ) : HealthMetrics :=
  { cpu_usage := c, memory_usage := 0, disk_usage := 0, response_time := 0
    error_rate := 0, timestamp := 0 }

/-- 10 monitor ticks fed snapshots with strictly increasing CPU values
1, 2, …, 10. -/
def increasingCpuOps10 : List MonitorOp :=
  [MonitorOp.tick (cpuSnapshot 1), MonitorOp.tick (cpuSnapshot 2),
   MonitorOp.tick (cpuSnapshot 3), MonitorOp.tick (cpuSnapshot 4),
   MonitorOp.tick (cpuSnapshot 5), MonitorOp.tick (cpuSnapshot 6),
   MonitorOp.tick (cpuSnapshot 7), MonitorOp.tick (cpuSnapshot 8),
   MonitorOp.tick (cpuSnapshot 9), MonitorOp.tick (cpuSnapshot 10)]

/-- An 11th strictly increasing tick on top of `increasingCpuOps10`. -/
def increasingCpuOps11 : List MonitorOp :=
  increasingCpuOps10 ++ [MonitorOp.tick (cpuSnapshot 11)]

/-- `n` monitor ticks fed snapshots with a flat CPU value. -/
def flatCpuOps (n : Nat) : List MonitorOp :=
  List.replicate n (MonitorOp.tick (cpuSnapshot 50))

def createA1Cmd : BotCommand :=
  { command_id := "cmd-a1", command_type := "create_bot"
    params := { bot_type := some "analyzer", name := some "A1" } }

def createG1Cmd : BotCommand :=
  { command_id := "cmd-g1", command_type := "create_bot"
    params := { bot_type := some "generator", name := some "G1" } }

def generateCodeCmd : BotCommand :=
  { command_id := "cmd-gen", command_type := "generate_code" }

def getStatusCmd : BotCommand :=
  { command_id := "cmd-status", command_type := "get_status" }

/-- Director state after creating the analyzer "A1" then the generator
"G1" (the routing scenario of the spec). -/
def scenarioState : DirectorState :=
  runDirector initialDirectorState [createA1Cmd, createG1Cmd]

/-- The registry entry of "G1" inside `scenarioState`. -/
def g1State : SubBotState :=
  { bot_id := "bot-1", bot_type := "generator", name := "G1", status := .idle
    is_running := false, queue := [], metrics := initialBotMetrics }

/-- Outcome oracle for the memory-pressure scenario: executing
`"HighMemoryUsage"` calls the bound method `self._handle_high_memory`
with two arguments `(None, context)` although it only accepts one, so the
executor raises `TypeError`, which `_execute_recovery_action` converts to
a failed attempt. -/
def failingOutcome : String → Bool := fun _ => false

def memSchedule1 : HealingState :=
  scheduleRecoveryAction failingOutcome initialHealingState "HighMemoryUsage" 0
def memSchedule2 : HealingState :=
  scheduleRecoveryAction failingOutcome memSchedule1 "HighMemoryUsage" 10
def memSchedule3 : HealingState :=
  scheduleRecoveryAction failingOutcome memSchedule2 "HighMemoryUsage" 61
def memSchedule4 : HealingState :=
  scheduleRecoveryAction failingOutcome memSchedule3 "HighMemoryUsage" 301

/-- Director state containing only the analyzer "A1" (no idle generator). -/
def scenarioStateA : DirectorState :=
  runDirector initialDirectorState [createA1Cmd]

/-! ## Helper lemmas -/

theorem length_lastN (n : Nat) (l : List α) : (lastN n l).length = min n l.length := by
  simp only [lastN, List.length_drop]
  omega

theorem executeSubCommand_commands_executed
    (handlers : String → Option (BotCommand → HandlerOutcome))
    (m : BotMetrics) (c : BotCommand) :
    (executeSubCommand handlers m c).1.commands_executed = m.commands_executed + 1 := by
  cases hh : handlers c.command_type with
  | none => simp [executeSubCommand, hh]
  | some f =>
    cases hr : f c with
    | ok p => simp [executeSubCommand, hh, hr]
    | exn msg => simp [executeSubCommand, hh, hr]

theorem runSubCommands_commands_executed
    (handlers : String → Option (BotCommand → HandlerOutcome)) :
    ∀ (cmds : List BotCommand) (m : BotMetrics),
      (runSubCommands handlers m cmds).commands_executed =
        m.commands_executed + cmds.length := by
  intro cmds
  induction cmds with
  | nil => intro m; rfl
  | cons c rest ih =>
    intro m
    simp only [runSubCommands, ih, executeSubCommand_commands_executed, List.length_cons]
    omega

/-! ## Claims -/

/-- C9: for every history, `_calculate_error_rate` returns a value in
[0, 1]; it is exactly 0 when fewer than 5 snapshots are stored, and
otherwise the fraction of the last at-most-10 stored snapshots whose
`cpu_usage` exceeds 80 (a CPU-derived quantity, not an error count). -/
theorem C9_error_rate (history : List HealthMetrics) :
    0 ≤ calculateErrorRate history ∧ calculateErrorRate history ≤ 1 ∧
    (history.length < 5 → calculateErrorRate history = 0) ∧
    (5 ≤ history.length →
      calculateErrorRate history =
        (((lastN 10 history).filter (fun m => decide (80 < m.cpu_usage))).length : ℚ) /
          ((lastN 10 history).length : ℚ)) := by
  unfold calculateErrorRate
  by_cases h : history.length < 5
  · rw [if_pos h]
    exact ⟨le_refl 0, by norm_num, fun _ => rfl, fun h5 => absurd h5 (by omega)⟩
  · rw [if_neg h]
    have hlen0 : 0 < (lastN 10 history).length := by
      rw [length_lastN]; omega
    have hlen : 0 < ((lastN 10 history).length : ℚ) := by exact_mod_cast hlen0
    refine ⟨?_, ?_, fun hlt => absurd hlt h, fun _ => rfl⟩
    · apply div_nonneg (by positivity) (le_of_lt hlen)
    · apply div_le_one_of_le₀
      · exact_mod_cast List.length_filter_le _ _
      · exact le_of_lt hlen

/-- Witness for C9 at concrete inputs of lengths 3 and 6. -/
theorem C9_error_rate_witness :
    ((List.replicate 3 (cpuSnapshot 90)).length < 5 ∧
      calculateErrorRate (List.replicate 3 (cpuSnapshot 90)) = 0) ∧
    (5 ≤ (List.replicate 6 (cpuSnapshot 90)).length ∧
      calculateErrorRate (List.replicate 6 (cpuSnapshot 90)) =
        (((lastN 10 (List.replicate 6 (cpuSnapshot 90))).filter
            (fun m => decide (80 < m.cpu_usage))).length : ℚ) /
          ((lastN 10 (List.replicate 6 (cpuSnapshot 90))).length : ℚ)) :=
  ⟨⟨by decide, (C9_error_rate (List.replicate 3 (cpuSnapshot 90))).2.2.1 (by decide)⟩,
   ⟨by decide, (C9_error_rate (List.replicate 6 (cpuSnapshot 90))).2.2.2 (by decide)⟩⟩

/-- C8: `get_health_summary` on an empty history returns the distinguished
`no_data` result (never a default snapshot, and — being total — it cannot
raise); on a non-empty history it returns the full summary whose status is
"healthy" exactly when the latest snapshot has cpu < 80 and memory < 80,
and "warning" otherwise. -/
theorem C8_health_summary :
    (∀ active : Bool, getHealthSummary [] active = HealthSummary.noData) ∧
    (∀ (history : List HealthMetrics) (active : Bool) (latest : HealthMetrics),
      history.getLast? = some latest →
      ∃ d : SummaryData, getHealthSummary history active = HealthSummary.full d ∧
        (d.status = "healthy" ↔ latest.cpu_usage < 80 ∧ latest.memory_usage < 80) ∧
        (d.status = "healthy" ∨ d.status = "warning")) := by
  constructor
  · intro _; rfl
  · intro history active latest hlast
    unfold getHealthSummary
    rw [hlast]
    refine ⟨_, rfl, ?_, ?_⟩
    · by_cases hc : latest.cpu_usage < 80 ∧ latest.memory_usage < 80
      · simp [hc]
      · simp only [if_neg hc]
        constructor
        · intro hs; exact absurd hs (by decide)
        · intro hs; exact absurd hs hc
    · by_cases hc : latest.cpu_usage < 80 ∧ latest.memory_usage < 80
      · left; simp [hc]
      · right; simp [hc]

/-- Witness for C8 at a one-element history. -/
theorem C8_health_summary_witness :
    [cpuSnapshot 50].getLast? = some (cpuSnapshot 50) ∧
    ∃ d : SummaryData, getHealthSummary [cpuSnapshot 50] true = HealthSummary.full d ∧
      (d.status = "healthy" ↔ (cpuSnapshot 50).cpu_usage < 80 ∧ (cpuSnapshot 50).memory_usage < 80) ∧
      (d.status = "healthy" ∨ d.status = "warning") :=
  ⟨by decide, C8_health_summary.2 [cpuSnapshot 50] true (cpuSnapshot 50) (by decide)⟩

/-- C1 fails as stated: a single failing command (unknown type) on a fresh
Agent gives `commands_executed = 1` and `error_count = 1`, so the claimed
`success_rate = successes/N*100` would be `0/1*100 = 0`, but the `except`
branch of `execute_command` does not recompute `success_rate`, leaving it
at its initial 100.0. -/
theorem C1_counterexample :
    (runSubCommands (fun _ => none) initialBotMetrics
        [{ command_id := "c1", command_type := "bogus" }]).commands_executed = 1 ∧
    (runSubCommands (fun _ => none) initialBotMetrics
        [{ command_id := "c1", command_type := "bogus" }]).error_count = 1 ∧
    (runSubCommands (fun _ => none) initialBotMetrics
        [{ command_id := "c1", command_type := "bogus" }]).success_rate = 100 ∧
    ((0 : ℚ) / 1 * 100 ≠ 100) := by
  refine ⟨by decide, by decide, by decide, by norm_num⟩

/-- C1 amended: after any sequence of N command executions,
`commands_executed = N`; `success_rate` is recomputed only after a
successful command — then it equals `successes/attempts*100` for the
current counters — while a failing command increments the counters but
leaves `success_rate` unchanged (it retains the value from the last
success, or the initial 100.0). -/
theorem C1_amended (handlers : String → Option (BotCommand → HandlerOutcome)) :
    (∀ cmds : List BotCommand,
      (runSubCommands handlers initialBotMetrics cmds).commands_executed = cmds.length) ∧
    (∀ (m : BotMetrics) (c : BotCommand),
      (executeSubCommand handlers m c).2.isError = false →
      (executeSubCommand handlers m c).1.success_rate =
        (((executeSubCommand handlers m c).1.commands_executed : ℚ) -
          ((executeSubCommand handlers m c).1.error_count : ℚ)) /
          ((executeSubCommand handlers m c).1.commands_executed : ℚ) * 100) ∧
    (∀ (m : BotMetrics) (c : BotCommand),
      (executeSubCommand handlers m c).2.isError = true →
      (executeSubCommand handlers m c).1.success_rate = m.success_rate) := by
  refine ⟨?_, ?_, ?_⟩
  · intro cmds
    rw [runSubCommands_commands_executed]
    simp [initialBotMetrics]
  · intro m c h
    cases hh : handlers c.command_type with
    | none => simp [executeSubCommand, hh, ExecResult.isError] at h
    | some f =>
      cases hr : f c with
      | ok p => simp [executeSubCommand, hh, hr]
      | exn msg => simp [executeSubCommand, hh, hr, ExecResult.isError] at h
  · intro m c h
    cases hh : handlers c.command_type with
    | none => simp [executeSubCommand, hh]
    | some f =>
      cases hr : f c with
      | ok p => simp [executeSubCommand, hh, hr, ExecResult.isError] at h
      | exn msg => simp [executeSubCommand, hh, hr]

/-- Witness for C1 at a one-command succeeding sequence and a one-command
failing sequence. -/
theorem C1_amended_witness :
    ((runSubCommands (fun _ => some (fun _ => HandlerOutcome.ok "pong"))
        initialBotMetrics [{ command_id := "w1", command_type := "ping" }]).commands_executed
      = 1) ∧
    ((executeSubCommand (fun _ => some (fun _ => HandlerOutcome.ok "pong"))
        initialBotMetrics { command_id := "w1", command_type := "ping" }).2.isError = false ∧
      (executeSubCommand (fun _ => some (fun _ => HandlerOutcome.ok "pong"))
        initialBotMetrics { command_id := "w1", command_type := "ping" }).1.success_rate =
        (((executeSubCommand (fun _ => some (fun _ => HandlerOutcome.ok "pong"))
            initialBotMetrics { command_id := "w1", command_type := "ping" }).1.commands_executed : ℚ) -
          ((executeSubCommand (fun _ => some (fun _ => HandlerOutcome.ok "pong"))
            initialBotMetrics { command_id := "w1", command_type := "ping" }).1.error_count : ℚ)) /
          ((executeSubCommand (fun _ => some (fun _ => HandlerOutcome.ok "pong"))
            initialBotMetrics { command_id := "w1", command_type := "ping" }).1.commands_executed : ℚ) * 100) ∧
    ((executeSubCommand (fun _ => none) initialBotMetrics
        { command_id := "w2", command_type := "bogus" }).2.isError = true ∧
      (executeSubCommand (fun _ => none) initialBotMetrics
        { command_id := "w2", command_type := "bogus" }).1.success_rate =
        initialBotMetrics.success_rate) :=
  ⟨(C1_amended (fun _ => some (fun _ => HandlerOutcome.ok "pong"))).1 _,
   ⟨by decide, (C1_amended (fun _ => some (fun _ => HandlerOutcome.ok "pong"))).2.1 _ _ (by decide)⟩,
   ⟨by decide, (C1_amended (fun _ => none)).2.2 _ _ (by decide)⟩⟩

/-- C6: a command whose type is absent from the Agent's handler table
yields the structured error outcome carrying the message and the command
id (it is the `ValueError` converted by the `except` branch, not a
propagated exception — the embedded `executeSubCommand` is total), with
both counters incremented and `success_rate` untouched. -/
theorem C6_unknown_command_type
    (handlers : String → Option (BotCommand → HandlerOutcome))
    (m : BotMetrics) (c : BotCommand) (h : handlers c.command_type = none) :
    (executeSubCommand handlers m c).2 =
      ExecResult.error ("Unknown command type: " ++ c.command_type) c.command_id ∧
    (executeSubCommand handlers m c).1.commands_executed = m.commands_executed + 1 ∧
    (executeSubCommand handlers m c).1.error_count = m.error_count + 1 ∧
    (executeSubCommand handlers m c).1.success_rate = m.success_rate := by
  refine ⟨?_, ?_, ?_, ?_⟩ <;> simp [executeSubCommand, h]

/-- Witness for C6 at a concrete empty handler table. -/
theorem C6_unknown_command_type_witness :
    ((fun _ => (none : Option (BotCommand → HandlerOutcome))) "bogus" = none) ∧
    (executeSubCommand (fun _ => none) initialBotMetrics
        { command_id := "w3", command_type := "bogus" }).2 =
      ExecResult.error ("Unknown command type: " ++ "bogus") "w3" :=
  ⟨rfl,
   (C6_unknown_command_type (fun _ => none) initialBotMetrics
      { command_id := "w3", command_type := "bogus" } rfl).1⟩

/-- C2 fails as stated: with the catalog's memory-cleanup action declaring
a 60 s cooldown, scheduling the memory-pressure action at t=0 records one
attempt and scheduling again at t=10 is a no-op, but scheduling again at
t=61 — which the claim says must record a new attempt — is still a no-op:
`_schedule_recovery_action` calls `_was_recently_attempted` without a
cooldown argument, so the hard-coded default of 300 s applies and the
count stays at 1. -/
theorem memSchedule2_eq : memSchedule2 = memSchedule1 := by
  have hguard :
      wasRecentlyAttempted memSchedule1.action_history "HighMemoryUsage" 10 300 = true := by
    show decide ((10 : ℚ) - 0 < 300) = true
    rw [decide_eq_true_eq]; norm_num
  show scheduleRecoveryAction failingOutcome memSchedule1 "HighMemoryUsage" 10 = memSchedule1
  unfold scheduleRecoveryAction
  rw [hguard]
  rfl

theorem memSchedule3_eq : memSchedule3 = memSchedule2 := by
  show scheduleRecoveryAction failingOutcome memSchedule2 "HighMemoryUsage" 61 = memSchedule2
  rw [memSchedule2_eq]
  have hguard :
      wasRecentlyAttempted memSchedule1.action_history "HighMemoryUsage" 61 300 = true := by
    show decide ((61 : ℚ) - 0 < 300) = true
    rw [decide_eq_true_eq]; norm_num
  unfold scheduleRecoveryAction
  rw [hguard]
  rfl

theorem memSchedule4_attempts : attemptsOf memSchedule4 "HighMemoryUsage" = 2 := by
  have hguard :
      wasRecentlyAttempted memSchedule1.action_history "HighMemoryUsage" 301 300 = false := by
    show decide ((301 : ℚ) - 0 < 300) = false
    rw [decide_eq_false_iff_not]; norm_num
  show attemptsOf (scheduleRecoveryAction failingOutcome memSchedule3 "HighMemoryUsage" 301)
    "HighMemoryUsage" = 2
  rw [memSchedule3_eq, memSchedule2_eq]
  unfold scheduleRecoveryAction
  rw [hguard]
  rfl

theorem C2_counterexample :
    attemptsOf memSchedule1 "HighMemoryUsage" = 1 ∧
    memSchedule2 = memSchedule1 ∧
    memSchedule3 = memSchedule2 ∧
    ¬ attemptsOf memSchedule3 "HighMemoryUsage" = 2 := by
  refine ⟨by decide, memSchedule2_eq, memSchedule3_eq, ?_⟩
  rw [memSchedule3_eq, memSchedule2_eq]
  decide

/-- C2 amended: the scheduler throttles with the fixed 300 s default
window of `_was_recently_attempted`, ignoring the per-action cooldown
(the registered `clear_memory` action does declare cooldown 60):
scheduling the memory-pressure action at t=0 records one attempt,
re-scheduling at t=10 and at t=61 are both no-ops (still exactly one
recorded attempt), and a new attempt is recorded once the window has
passed, e.g. at t=301. -/
theorem C2_amended :
    (∃ a ∈ registeredRecoveryActions, a.name = "clear_memory" ∧ a.cooldown = 60) ∧
    attemptsOf memSchedule1 "HighMemoryUsage" = 1 ∧
    memSchedule2 = memSchedule1 ∧
    memSchedule3 = memSchedule2 ∧
    attemptsOf memSchedule4 "HighMemoryUsage" = 2 := by
  refine ⟨⟨{ name := "clear_memory", priority := 2, max_attempts := 5, cooldown := 60 },
      by decide, rfl, rfl⟩, by decide, memSchedule2_eq, memSchedule3_eq,
    memSchedule4_attempts⟩

theorem runMonitorOps_append (l1 l2 : List MonitorOp) :
    ∀ h : List HealthMetrics,
      runMonitorOps (l1 ++ l2) h =
        ((runMonitorOps l2 (runMonitorOps l1 h).1).1,
         (runMonitorOps l1 h).2 ++ (runMonitorOps l2 (runMonitorOps l1 h).1).2) := by
  induction l1 with
  | nil => intro h; simp [runMonitorOps]
  | cons op rest ih =>
    intro h
    cases op <;> simp [runMonitorOps, ih, List.append_assoc]

theorem trimHistory_length_le (l : List HealthMetrics) :
    (trimHistory l).length ≤ maxHistory := by
  unfold trimHistory
  by_cases h : maxHistory < l.length
  · rw [if_pos h, length_lastN]; omega
  · rw [if_neg h]; omega

theorem runMonitorOps_tick_last_length (ops : List MonitorOp)
    (h : List HealthMetrics) (m : HealthMetrics) :
    (runMonitorOps (ops ++ [MonitorOp.tick m]) h).1.length ≤ maxHistory := by
  rw [runMonitorOps_append]
  simp only [runMonitorOps, monitorTick]
  exact trimHistory_length_le _

theorem trailingForces_append_tick (ops : List MonitorOp) (m : HealthMetrics) :
    trailingForces (ops ++ [MonitorOp.tick m]) = 0 := by
  induction ops with
  | nil => rfl
  | cons op rest ih =>
    cases op with
    | tick m2 => simpa [trailingForces] using ih
    | force m2 => simp [trailingForces, List.any_append, isTick, ih]

theorem trailingForces_append_force (ops : List MonitorOp) (m : HealthMetrics) :
    trailingForces (ops ++ [MonitorOp.force m]) = trailingForces ops + 1 := by
  induction ops with
  | nil => rfl
  | cons op rest ih =>
    cases op with
    | tick m2 => simpa [trailingForces] using ih
    | force m2 =>
      cases hr : rest.any isTick with
      | true => simp [trailingForces, List.any_append, isTick, hr, ih]
      | false => simp [trailingForces, List.any_append, isTick, hr]

theorem runMonitorOps_replicate_force_length (m : HealthMetrics) :
    ∀ (n : Nat) (h : List HealthMetrics),
      (runMonitorOps (List.replicate n (MonitorOp.force m)) h).1.length = h.length + n := by
  intro n
  induction n with
  | zero => intro h; simp [runMonitorOps]
  | succ k ih =>
    intro h
    rw [List.replicate_succ]
    simp only [runMonitorOps, forceHealthCheck, storeMetrics, ih]
    simp
    omega

/-- C3 fails as stated: the history cap is enforced only by the monitor
loop; `force_health_check` stores a snapshot without the trimming step, so
101 forced health checks from an empty history leave 101 stored snapshots,
exceeding the cap of 100. -/
theorem C3_counterexample :
    maxHistory = 100 ∧
    (runMonitorOps (List.replicate 101 (MonitorOp.force (cpuSnapshot 1))) []).1.length = 101 ∧
    100 < 101 := by
  refine ⟨rfl, ?_, by norm_num⟩
  rw [runMonitorOps_replicate_force_length]
  rfl

/-- C3 amended: after any interleaving that ends with a monitor tick the
history length is at most the cap (monitor ticks alone can therefore never
exceed it); in general the length can exceed the cap by at most the number
of forced health checks performed since the last monitor tick. -/
theorem C3_amended :
    (∀ (ops : List MonitorOp) (h : List HealthMetrics) (m : HealthMetrics),
      (runMonitorOps (ops ++ [MonitorOp.tick m]) h).1.length ≤ maxHistory) ∧
    (∀ ops : List MonitorOp,
      (runMonitorOps ops []).1.length ≤ maxHistory + trailingForces ops) := by
  refine ⟨fun ops h m => runMonitorOps_tick_last_length ops h m, ?_⟩
  intro ops
  induction ops using List.reverseRecOn with
  | nil => simp [runMonitorOps, trailingForces]
  | append_singleton l op ih =>
    cases op with
    | tick m =>
      exact le_trans (runMonitorOps_tick_last_length l [] m) (Nat.le_add_right _ _)
    | force m =>
      rw [runMonitorOps_append, trailingForces_append_force]
      simp only [runMonitorOps, forceHealthCheck, storeMetrics]
      simp only [List.length_append, List.length_cons, List.length_nil]
      omega

/-- C7 fails as stated: each fed snapshot is analyzed against the history
*before* it is stored, and trend analysis only runs once at least 10
snapshots are stored, so feeding 10 strictly increasing snapshots into an
empty monitor fires no "steadily increasing" alert — the analysis of the
10th snapshot still sees only 9 stored samples. -/
theorem C7_counterexample :
    "CPU usage trend: steadily increasing" ∉ (runMonitorOps increasingCpuOps10 []).2 := by
  decide

/-- C7 amended: an 11th strictly increasing snapshot does fire the
"steadily increasing" alert (its analysis sees the 10 stored, strictly
increasing samples), while feeding 10 flat snapshots fires no such alert. -/
theorem C7_amended :
    ("CPU usage trend: steadily increasing" ∈ (runMonitorOps increasingCpuOps11 []).2) ∧
    ("CPU usage trend: steadily increasing" ∉ (runMonitorOps (flatCpuOps 10) []).2) := by
  constructor
  · have hh : (runMonitorOps increasingCpuOps10 []).1 =
        [cpuSnapshot 1, cpuSnapshot 2, cpuSnapshot 3, cpuSnapshot 4, cpuSnapshot 5,
         cpuSnapshot 6, cpuSnapshot 7, cpuSnapshot 8, cpuSnapshot 9, cpuSnapshot 10] := by
      decide
    have hsplit : increasingCpuOps11 = increasingCpuOps10 ++ [MonitorOp.tick (cpuSnapshot 11)] :=
      rfl
    rw [hsplit, runMonitorOps_append]
    apply List.mem_append_right
    rw [hh]
    simp only [runMonitorOps, monitorTick, List.append_nil]
    simp only [analyzeMetrics]
    apply List.mem_append_right
    split
    case isTrue h10 =>
      simp only [analyzeTrends]
      apply List.mem_append_left
      split
      case isTrue hc => exact List.mem_singleton_self _
      case isFalse hc => exact absurd (by decide) hc
    case isFalse h10 => exact absurd (by decide) h10
  · decide

theorem findBot_nodup (l : List SubBotState) (g : SubBotState)
    (hnd : (l.map (·.bot_id)).Nodup) (hg : g ∈ l) :
    l.find? (fun b => b.bot_id = g.bot_id) = some g := by
  induction l with
  | nil => cases hg
  | cons b rest ih =>
    rw [List.map_cons, List.nodup_cons] at hnd
    rcases List.mem_cons.mp hg with rfl | hmem
    · simp [List.find?]
    · have hbne : b.bot_id ≠ g.bot_id := by
        intro he
        exact hnd.1 (he ▸ List.mem_map.mpr ⟨g, hmem, rfl⟩)
      rw [List.find?_cons_of_neg, ih hnd.2 hmem]
      simp [hbne]

theorem directorDelegate_routes (core : DirectorCore) (cmd : BotCommand) (g : SubBotState)
    (htype : commandToBotMapping cmd.command_type = some "generator")
    (htarget : cmd.target_bot = none)
    (hnd : (core.sub_bots.map (·.bot_id)).Nodup)
    (hne : g.bot_id ≠ "")
    (hfind : core.sub_bots.find?
      (fun b => decide (b.bot_type = "generator") && decide (b.status = BotStatus.idle)) =
      some g) :
    directorDelegate core cmd =
      ({ core with sub_bots := core.sub_bots.map (fun x =>
          if x.bot_id = g.bot_id then { x with queue := x.queue ++ [cmd] } else x) },
       DirOutcome.ok ("Command delegated to " ++ g.name)) := by
  have hg : g ∈ core.sub_bots := List.mem_of_find?_eq_some hfind
  have hfb : findBot core g.bot_id = some g := findBot_nodup _ _ hnd hg
  have hdne : (decide (g.bot_id = "")) = false := decide_eq_false hne
  simp only [directorDelegate, htarget, htype, hfind, targetMissing, if_true, hdne,
    Bool.false_or, hfb, Option.isNone_some, Bool.false_eq_true, if_false, Option.getD_some]

theorem directorDelegate_no_idle (core : DirectorCore) (cmd : BotCommand)
    (htype : commandToBotMapping cmd.command_type = some "generator")
    (htarget : cmd.target_bot = none)
    (hfind : core.sub_bots.find?
      (fun b => decide (b.bot_type = "generator") && decide (b.status = BotStatus.idle)) =
      none) :
    directorDelegate core cmd =
      (core, DirOutcome.exn ("No suitable bot found for command: " ++ cmd.command_type)) := by
  simp only [directorDelegate, htarget, htype, hfind, targetMissing, if_true,
    eq_self_iff_true]

/-- C4: with no explicit target, a `generate_code` command is routed to the
first registered IDLE generator-type Agent (in particular to the generator,
never the analyzer, in the A1/G1 scenario), the command being placed on
that Agent's queue; and when no idle generator exists, `execute_command`
returns the "No suitable bot found" error outcome and no Agent's queue is
touched (the command is not queued for retry). -/
theorem C4_routing :
    (∀ (st : DirectorState) (cmd : BotCommand) (g : SubBotState),
      cmd.command_type = "generate_code" →
      cmd.target_bot = none →
      (st.core.sub_bots.map (·.bot_id)).Nodup →
      g.bot_id ≠ "" →
      st.core.sub_bots.find?
          (fun b => decide (b.bot_type = "generator") && decide (b.status = BotStatus.idle)) =
        some g →
      ((directorExecute st cmd).2 = ExecResult.success ("Command delegated to " ++ g.name) ∧
        g.bot_type = "generator" ∧ g.status = BotStatus.idle ∧
        (directorExecute st cmd).1.core.sub_bots = st.core.sub_bots.map (fun x =>
          if x.bot_id = g.bot_id then { x with queue := x.queue ++ [cmd] } else x))) ∧
    (∀ (st : DirectorState) (cmd : BotCommand),
      cmd.command_type = "generate_code" →
      cmd.target_bot = none →
      (∀ b ∈ st.core.sub_bots, ¬ (b.bot_type = "generator" ∧ b.status = BotStatus.idle)) →
      ((directorExecute st cmd).2 =
          ExecResult.error ("No suitable bot found for command: " ++ "generate_code")
            cmd.command_id ∧
        (directorExecute st cmd).1.core = st.core)) := by
  constructor
  · intro st cmd g htype htarget hnd hne hfind
    have hdel := directorDelegate_routes st.core cmd g (by rw [htype]; rfl) htarget hnd hne hfind
    have hhandlers : directorHandlers cmd.command_type = none := by rw [htype]; rfl
    have hp := List.find?_some hfind
    rw [Bool.and_eq_true, decide_eq_true_eq, decide_eq_true_eq] at hp
    refine ⟨by simp only [directorExecute, hhandlers, hdel], hp.1, hp.2,
      by simp only [directorExecute, hhandlers, hdel]⟩
  · intro st cmd htype htarget hnone
    have hfind : st.core.sub_bots.find?
        (fun b => decide (b.bot_type = "generator") && decide (b.status = BotStatus.idle)) =
        none := by
      rw [List.find?_eq_none]
      intro b hb hpred
      rw [Bool.and_eq_true, decide_eq_true_eq, decide_eq_true_eq] at hpred
      exact hnone b hb hpred
    have hdel := directorDelegate_no_idle st.core cmd (by rw [htype]; rfl) htarget hfind
    have hhandlers : directorHandlers cmd.command_type = none := by rw [htype]; rfl
    constructor
    · simp only [directorExecute, htype, hdel]
      rfl
    · simp only [directorExecute, htype, hdel]
      rfl

/-- Witness for C4 on the A1/G1 scenario and on the analyzer-only state. -/
theorem C4_routing_witness :
    ((directorExecute scenarioState generateCodeCmd).2 =
        ExecResult.success ("Command delegated to " ++ g1State.name) ∧
      g1State.bot_type = "generator" ∧ g1State.status = BotStatus.idle ∧
      (directorExecute scenarioState generateCodeCmd).1.core.sub_bots =
        scenarioState.core.sub_bots.map (fun x =>
          if x.bot_id = g1State.bot_id then { x with queue := x.queue ++ [generateCodeCmd] }
          else x)) ∧
    ((directorExecute scenarioStateA generateCodeCmd).2 =
        ExecResult.error ("No suitable bot found for command: " ++ "generate_code")
          generateCodeCmd.command_id ∧
      (directorExecute scenarioStateA generateCodeCmd).1.core = scenarioStateA.core) :=
  ⟨C4_routing.1 scenarioState generateCodeCmd g1State rfl rfl (by decide) (by decide) (by decide),
   C4_routing.2 scenarioStateA generateCodeCmd rfl rfl (by decide)⟩

theorem completeLastEntry_append (l : List HistEntry) (e : HistEntry) (p : String) :
    completeLastEntry (l ++ [e]) p =
      l ++ [{ e with status := "completed", result := some p }] := by
  unfold completeLastEntry
  rw [List.getLast?_concat, List.dropLast_concat]

theorem errorLastEntry_append (l : List HistEntry) (e : HistEntry) (msg : String) :
    errorLastEntry (l ++ [e]) msg =
      l ++ [{ e with status := "error", error := some msg }] := by
  unfold errorLastEntry
  rw [List.getLast?_concat, List.dropLast_concat]

/-- C5 fails as stated: a command of a non-director type (here
`generate_code`) that is *successfully delegated* returns from
`execute_command` through the early `return await
self._handle_delegate_command(command)` path, which skips the
history-completion update — its history entry stays at `'executing'`
instead of being updated to `'completed'`. -/
theorem C5_counterexample :
    (directorExecute scenarioState generateCodeCmd).2 =
      ExecResult.success "Command delegated to G1" ∧
    ((directorExecute scenarioState generateCodeCmd).1.command_history.getLast?.map
      (·.status)) = some "executing" ∧
    "executing" ≠ "completed" := by
  refine ⟨by decide, by decide, by decide⟩

/-- C5 amended: every `execute_command` call appends exactly one history
entry (never a second one for completion); a director-level command's
entry is afterwards updated in place — to `'completed'` with the result on
success, to `'error'` with the message when the handler (or the
delegation) raises — while a successfully *delegated* command's entry
remains `'executing'`. -/
theorem C5_amended (st : DirectorState) (cmd : BotCommand) :
    ∃ e : HistEntry,
      (directorExecute st cmd).1.command_history = st.command_history ++ [e] ∧
      e.command_id = cmd.command_id ∧
      (∀ r, (directorExecute st cmd).2 = ExecResult.success r →
        (directorHandlers cmd.command_type).isSome →
        e.status = "completed" ∧ e.result = some r) ∧
      (∀ msg cid, (directorExecute st cmd).2 = ExecResult.error msg cid →
        e.status = "error" ∧ e.error = some msg) ∧
      (∀ r, (directorExecute st cmd).2 = ExecResult.success r →
        directorHandlers cmd.command_type = none →
        e.status = "executing") := by
  cases hh : directorHandlers cmd.command_type with
  | none =>
    cases hd : directorDelegate st.core cmd with
    | mk core2 outcome =>
      cases outcome with
      | ok payload =>
        refine ⟨{ command_id := cmd.command_id, status := "executing" },
          by simp only [directorExecute, hh, hd], rfl, ?_, ?_, ?_⟩
        · intro r hr hsome
          simp at hsome
        · intro msg cid hr
          simp only [directorExecute, hh, hd] at hr
          cases hr
        · intro r hr _
          rfl
      | exn msg =>
        refine ⟨{ command_id := cmd.command_id, status := "error", error := some msg },
          ?_, rfl, ?_, ?_, ?_⟩
        · simp only [directorExecute, hh, hd]
          exact errorLastEntry_append _ _ _
        · intro r hr _
          simp only [directorExecute, hh, hd] at hr
          cases hr
        · intro msg2 cid hr
          simp only [directorExecute, hh, hd] at hr
          cases hr
          exact ⟨rfl, rfl⟩
        · intro r hr _
          simp only [directorExecute, hh, hd] at hr
          cases hr
  | some h =>
    cases hd : h st.core cmd with
    | mk core2 outcome =>
      cases outcome with
      | ok payload =>
        refine ⟨{ command_id := cmd.command_id, status := "completed", result := some payload },
          ?_, rfl, ?_, ?_, ?_⟩
        · simp only [directorExecute, hh, hd]
          exact completeLastEntry_append _ _ _
        · intro r hr _
          simp only [directorExecute, hh, hd] at hr
          cases hr
          exact ⟨rfl, rfl⟩
        · intro msg cid hr
          simp only [directorExecute, hh, hd] at hr
          cases hr
        · intro r _ hnone
          cases hnone
      | exn msg =>
        refine ⟨{ command_id := cmd.command_id, status := "error", error := some msg },
          ?_, rfl, ?_, ?_, ?_⟩
        · simp only [directorExecute, hh, hd]
          exact errorLastEntry_append _ _ _
        · intro r hr _
          simp only [directorExecute, hh, hd] at hr
          cases hr
        · intro msg2 cid hr
          simp only [directorExecute, hh, hd] at hr
          cases hr
          exact ⟨rfl, rfl⟩
        · intro r hr _
          simp only [directorExecute, hh, hd] at hr
          cases hr

/-- Witness for C5 at the director-level `get_status` command. -/
theorem C5_amended_witness :
    ∃ e : HistEntry,
      (directorExecute initialDirectorState getStatusCmd).1.command_history =
        initialDirectorState.command_history ++ [e] ∧
      e.status = "completed" ∧ e.result = some "status" := by
  obtain ⟨e, h1, _, h3, _, _⟩ := C5_amended initialDirectorState getStatusCmd
  exact ⟨e, h1, h3 "status" (by decide) (by decide)⟩

theorem directorExecute_history_append (st : DirectorState) (cmd : BotCommand) :
    ∃ e, (directorExecute st cmd).1.command_history = st.command_history ++ [e] := by
  cases hh : directorHandlers cmd.command_type with
  | none =>
    cases hd : directorDelegate st.core cmd with
    | mk core2 outcome =>
      cases outcome with
      | ok payload =>
        exact ⟨{ command_id := cmd.command_id, status := "executing" },
          by simp only [directorExecute, hh, hd]⟩
      | exn msg =>
        refine ⟨{ command_id := cmd.command_id, status := "error", error := some msg }, ?_⟩
        simp only [directorExecute, hh, hd]
        exact errorLastEntry_append _ _ _
  | some h =>
    cases hd : h st.core cmd with
    | mk core2 outcome =>
      cases outcome with
      | ok payload =>
        refine ⟨{ command_id := cmd.command_id, status := "completed", result := some payload },
          ?_⟩
        simp only [directorExecute, hh, hd]
        exact completeLastEntry_append _ _ _
      | exn msg =>
        refine ⟨{ command_id := cmd.command_id, status := "error", error := some msg }, ?_⟩
        simp only [directorExecute, hh, hd]
        exact errorLastEntry_append _ _ _

theorem runDirector_history_length :
    ∀ (cmds : List BotCommand) (st : DirectorState),
      (runDirector st cmds).command_history.length =
        st.command_history.length + cmds.length := by
  intro cmds
  induction cmds with
  | nil => intro st; rfl
  | cons c rest ih =>
    intro st
    show (runDirector (directorExecute st c).1 rest).command_history.length = _
    rw [ih]
    obtain ⟨e, he⟩ := directorExecute_history_append st c
    rw [he]
    simp [List.length_append]
    omega

/-- C10: every `execute_command` call appends exactly one entry to the
command history — the previous history is preserved as a prefix — so after
any K invocations from a fresh Director the history length is exactly K,
regardless of outcomes. -/
theorem C10_history_length :
    (∀ (st : DirectorState) (cmd : BotCommand),
      ∃ e, (directorExecute st cmd).1.command_history = st.command_history ++ [e]) ∧
    (∀ cmds : List BotCommand,
      (runDirector initialDirectorState cmds).command_history.length = cmds.length) := by
  refine ⟨directorExecute_history_append, ?_⟩
  intro cmds
  rw [runDirector_history_length]
  simp [initialDirectorState]

end SelfAware
